import Mathlib

/-!
Verification development for the Mandala-go data-plane core.

The Go sources under `core/protocol`, `core/proxy`, `core/tun` and
`mobile` are shallowly embedded below.  Bytes are modelled as `Nat`
(values < 256 where it matters, with `% 256` applied exactly where the
Go code performs a `byte(...)` truncation); byte slices are `List Nat`;
a blocking stream read is modelled by consuming a prefix of the input
list, where running out of input corresponds to a read error.
-/

namespace Mandala

/-- `io.ReadFull(conn, buf[:n])` on a stream whose remaining bytes are
`input`: succeeds with the first `n` bytes and the rest of the stream;
fails when fewer than `n` bytes remain. -/
def readFull (n : Nat) (input : List Nat) : Option (List Nat × List Nat) :=
  if input.length < n then none else some (input.take n, input.drop n)

theorem readFull_append (l rest : List Nat) :
    readFull l.length (l ++ rest) = some (l, rest) := by
  simp [readFull, List.take_left, List.drop_left]

/-- The classification that `net.ParseIP` / `ip.To4` perform on a target
host string in the Go sources: a dotted IPv4 literal, an IPv6 literal
(16 bytes), or anything else as a domain name (given here as its ASCII
bytes). -/
inductive Host where
  | ipv4 (a b c d : Nat)
  | ipv6 (bytes : List Nat)
  | domain (bytes : List Nat)
deriving DecidableEq, Repr

/-- The two big-endian port bytes emitted by the Go sources
(`byte(port >> 8)` and `byte(port)`). -/
def portBytes (port : Nat) : List Nat :=
  [(port >>> 8) % 256, port % 256]

/-- Modelled from the spec: `ToSocksAddr` lives in
`core/protocol/utils.go`, which is not among the provided sources (only
its callers in `trojan.go`, `shadowsocks.go` and the tun handlers are).
Spec §4.F: the SOCKS address format is `ATYP(1) || ADDR || PORT(2,
big-endian)` with ATYP ∈ {0x01 IPv4(4), 0x03 DomainName(len||str, ≤255),
0x04 IPv6(16)}.  It agrees with `buildSocksAddr` below, which is in the
provided sources. -/
def ToSocksAddr (host : Host) (port : Nat) : Option (List Nat) :=
  match host with
  | .ipv4 a b c d => some ([0x01, a % 256, b % 256, c % 256, d % 256] ++ portBytes port)
  | .ipv6 bs => some ([0x04] ++ bs ++ portBytes port)
  | .domain s =>
      if s.length > 255 then none
      else some ([0x03, s.length] ++ s ++ portBytes port)

/-- `buildSocksAddr` from `core/protocol/socks5.go`: builds
`[ATYP][ADDR][PORT]` for the CONNECT request, failing on a domain longer
than 255 bytes. -/
def buildSocksAddr (host : Host) (port : Nat) : Option (List Nat) :=
  match host with
  | .ipv4 a b c d => some ([0x01, a % 256, b % 256, c % 256, d % 256] ++ portBytes port)
  | .ipv6 bs => some ([0x04] ++ bs ++ portBytes port)
  | .domain s =>
      if s.length > 255 then none
      else some ([0x03, s.length] ++ s ++ portBytes port)

theorem ToSocksAddr_eq_buildSocksAddr (host : Host) (port : Nat) :
    ToSocksAddr host port = buildSocksAddr host port := rfl

/-- `BuildShadowsocksPayload` from `core/protocol/shadowsocks.go`: the
16 random salt bytes read from `crypto/rand` are passed in as `salt`
(the source fills a 16-byte buffer with `io.ReadFull(rand.Reader, salt)`);
the result is `salt ++ ToSocksAddr(target)`.  The `password` argument is
accepted and ignored, as in the source. -/
def BuildShadowsocksPayload (password : List Nat) (salt : List Nat)
    (targetHost : Host) (targetPort : Nat) : Option (List Nat) :=
  match ToSocksAddr targetHost targetPort with
  | none => none
  | some addr => some (salt ++ addr)

/-! ## SOCKS5 client handshake (`core/protocol/socks5.go`, primary version)

`HandshakeSocks5(conn, username, password, targetHost, targetPort)` is a
function of the byte stream the server sends (`input`) and produces the
sequence of writes the client performs plus either an error or the bytes
left unconsumed on the stream.  Credentials are byte lists (Go strings).
-/

/-- The failure cases of `HandshakeSocks5`, one per `return fmt.Errorf`
site of the source. -/
inductive S5Err where
  | initRead
  | badVersion (v : Nat)
  | credsTooLong
  | authRead
  | authFailed (status : Nat)
  | unsupportedMethod (m : Nat)
  | addrBuild
  | connectHeadRead
  | connectFailed (rep : Nat)
  | badAtyp (a : Nat)
  | domainLenRead
  | connectBodyRead
deriving DecidableEq, Repr

/-- Result of the modelled handshake: the writes performed on the
connection (in order) and either an error or the unread remainder of the
server's byte stream. -/
structure S5Result where
  writes : List (List Nat)
  outcome : Except S5Err (List Nat)
deriving Repr

/-- Steps 4–5 of `HandshakeSocks5`: send the CONNECT request
`05 01 00 || SocksAddr`, read the 4-byte reply header, reject `REP ≠ 0`,
then consume the BND.ADDR (ATYP-dependent, domain length from a further
1-byte prefix) and the 2-byte BND.PORT. -/
def socks5Connect (host : Host) (port : Nat) (writes : List (List Nat))
    (input : List Nat) : S5Result :=
  match buildSocksAddr host port with
  | none => ⟨writes, .error .addrBuild⟩
  | some addr =>
    let writes2 := writes ++ [[0x05, 0x01, 0x00] ++ addr]
    match readFull 4 input with
    | none => ⟨writes2, .error .connectHeadRead⟩
    | some (head, input1) =>
      let rep := (head.drop 1).headD 0
      let atyp := (head.drop 3).headD 0
      if rep ≠ 0 then ⟨writes2, .error (.connectFailed rep)⟩
      else if atyp = 0x01 then
        match readFull (4 + 2) input1 with
        | none => ⟨writes2, .error .connectBodyRead⟩
        | some (_, input2) => ⟨writes2, .ok input2⟩
      else if atyp = 0x04 then
        match readFull (16 + 2) input1 with
        | none => ⟨writes2, .error .connectBodyRead⟩
        | some (_, input2) => ⟨writes2, .ok input2⟩
      else if atyp = 0x03 then
        match readFull 1 input1 with
        | none => ⟨writes2, .error .domainLenRead⟩
        | some (lenByte, input2) =>
          match readFull (lenByte.headD 0 + 2) input2 with
          | none => ⟨writes2, .error .connectBodyRead⟩
          | some (_, input3) => ⟨writes2, .ok input3⟩
      else ⟨writes2, .error (.badAtyp atyp)⟩

/-- `HandshakeSocks5` from `core/protocol/socks5.go` (primary version).
Steps: advertise `{0x02}` when a username is set, else `{0x00}`; read the
2-byte method selection; on method `0x02` run the RFC 1929
subnegotiation and fail on a nonzero status; methods other than `0x00`,
`0x02` and `0xFF` are rejected (`0xFF` falls through the
`authMethod != 0x00 && authMethod != 0xFF` guard of the source and
proceeds); then the CONNECT exchange. -/
def HandshakeSocks5 (username password : List Nat) (targetHost : Host)
    (targetPort : Nat) (input : List Nat) : S5Result :=
  let methods : List Nat := if username ≠ [] then [0x02] else [0x00]
  let initBuf : List Nat := 0x05 :: methods.length :: methods
  let writes0 := [initBuf]
  match readFull 2 input with
  | none => ⟨writes0, .error .initRead⟩
  | some (resp, input1) =>
    let v := resp.headD 0
    let authMethod := (resp.drop 1).headD 0
    if v ≠ 0x05 then ⟨writes0, .error (.badVersion v)⟩
    else if authMethod = 0x02 then
      if username.length > 255 ∨ password.length > 255 then
        ⟨writes0, .error .credsTooLong⟩
      else
        let authBuf := [0x01, username.length] ++ username ++ [password.length] ++ password
        let writes1 := writes0 ++ [authBuf]
        match readFull 2 input1 with
        | none => ⟨writes1, .error .authRead⟩
        | some (aresp, input2) =>
          let status := (aresp.drop 1).headD 0
          if status ≠ 0 then ⟨writes1, .error (.authFailed status)⟩
          else socks5Connect targetHost targetPort writes1 input2
    else if authMethod ≠ 0x00 ∧ authMethod ≠ 0xFF then
      ⟨writes0, .error (.unsupportedMethod authMethod)⟩
    else socks5Connect targetHost targetPort writes0 input1

/-! ## Node configuration (`core/config/config.go`) and the outbound
dialer (`core/proxy/dialer.go`) -/

/-- `TLSConfig` from `core/config/config.go`, extended with the ECH
fields the dialer reads (`EnableECH`, `ECHDoHURL`, `ECHPublicName`). -/
structure TLSConfig where
  enabled : Bool
  serverName : String
  insecure : Bool
  enableECH : Bool
  echDoHURL : String
  echPublicName : String
deriving DecidableEq, Repr

/-- `TransportConfig` from `core/config/config.go` (headers omitted:
no claim depends on them). -/
structure TransportConfig where
  transportType : String
  path : String
deriving DecidableEq, Repr

/-- The `Settings` block the dialer reads (`d.Config.Settings.Fragment`). -/
structure Settings where
  fragment : Bool
deriving DecidableEq, Repr

/-- `OutboundConfig` from `core/config/config.go`; `tls` and `transport`
are pointers in Go, hence `Option` here. -/
structure OutboundConfig where
  tag : String
  nodeType : String
  server : String
  serverPort : Nat
  uuid : String
  password : String
  username : String
  tls : Option TLSConfig
  transport : Option TransportConfig
  settings : Settings
deriving DecidableEq, Repr

/-- `ParseConfig` from `core/config/config.go`, after the successful
`json.Unmarshal`: the compatibility step that aliases `Username` to
`UUID`.  The guard in the source is
`(cfg.Type == "socks" || cfg.Type == "socks5") && cfg.Username == "" && cfg.UUID != ""`. -/
def applyUuidAlias (cfg : OutboundConfig) : OutboundConfig :=
  if (cfg.nodeType = "socks" ∨ cfg.nodeType = "socks5") ∧
      cfg.username = "" ∧ cfg.uuid ≠ "" then
    { cfg with username := cfg.uuid }
  else cfg

/-- The TLS versions that occur in the dialer source (`tls.VersionTLS12`
is the only `MinVersion` it ever sets). -/
inductive TLSVersion where
  | tls12
  | tls13
deriving DecidableEq, Repr

/-- The `utls.Config` literal built in `(*Dialer).Dial`
(`core/proxy/dialer.go`): `MinVersion: tls.VersionTLS12`,
`NextProtos: ["http/1.1"]`, the ECH config list injected as
`EncryptedClientHelloConfigList`, and the ServerName fallback to
`cfg.Server` when empty. -/
structure UTLSConfig where
  serverName : String
  insecureSkipVerify : Bool
  minVersion : TLSVersion
  nextProtos : List String
  echConfigList : List Nat
deriving DecidableEq, Repr

def buildUTLSConfig (cfg : OutboundConfig) (tlsCfg : TLSConfig)
    (echConfigList : List Nat) : UTLSConfig :=
  let base : UTLSConfig :=
    { serverName := tlsCfg.serverName
      insecureSkipVerify := tlsCfg.insecure
      minVersion := .tls12
      nextProtos := ["http/1.1"]
      echConfigList := echConfigList }
  if base.serverName = "" then { base with serverName := cfg.server } else base

/-- The ECH config list `Dial` ends up injecting (cached variant of
`dialer.go`): only when `EnableECH` is set and a DoH URL is configured,
and only when the resolution (`resolution = some configs`) succeeded
with a non-empty list; on failure or empty result the dialer logs a
warning and proceeds with an empty list. -/
def dialEchConfigList (tlsCfg : TLSConfig) (resolution : Option (List Nat)) :
    List Nat :=
  if tlsCfg.enableECH ∧ tlsCfg.echDoHURL ≠ "" then
    match resolution with
    | some configs => if configs.length > 0 then configs else []
    | none => []
  else []

/-- Whether `Dial` wraps the TCP connection in the `FragmentConn` shim:
the wrap `conn = &FragmentConn{Conn: conn, active: true}` sits inside
the `d.Config.TLS != nil && d.Config.TLS.Enabled` branch, guarded by
`d.Config.Settings.Fragment`. -/
def fragmentInstalled (cfg : OutboundConfig) : Bool :=
  match cfg.tls with
  | some t => t.enabled && cfg.settings.fragment
  | none => false

/-- Whether the TLS branch of `Dial` runs at all. -/
def tlsBranchTaken (cfg : OutboundConfig) : Bool :=
  match cfg.tls with
  | some t => t.enabled
  | none => false

/-- `(*FragmentConn).Write` from `core/proxy/dialer.go`.  The state is
the `active` flag; `r` stands for the value drawn from `rand.Intn(10)`
(reduced `% 10` here so the model is total).  Returns the new flag and
the list of writes issued to the underlying TCP connection. -/
def fragmentWrite (r : Nat) (active : Bool) (b : List Nat) :
    Bool × List (List Nat) :=
  if active ∧ b.length > 50 ∧ b.headD 0 = 0x16 then
    let cut := 5 + r % 10
    (false, [b.take cut, b.drop cut])
  else (active, [b])

/-- A write at the shim boundary of the dialed connection: when the shim
is not installed the byte slice goes to the underlying connection as a
single unmodified write. -/
def shimWrite (installed : Bool) (r : Nat) (active : Bool) (b : List Nat) :
    Bool × List (List Nat) :=
  if installed then fragmentWrite r active b else (active, [b])

/-- Run a sequence of application writes through the shim boundary,
collecting for each one the list of underlying TCP writes it produced. -/
def shimRun (installed : Bool) (r : Nat) :
    Bool → List (List Nat) → List (List (List Nat))
  | _, [] => []
  | active, b :: bs =>
      let step := shimWrite installed r active b
      step.2 :: shimRun installed r step.1 bs

/-! ## TCP session forwarder (`(*Stack).handleTCP`)

Two variants exist in the sources.  The one embedded in
`core/proxy/handler.go` (lines 459–479 of the provided file) runs two
copier goroutines, each with `defer closeAll()` where `closeAll` fully
closes both `localConn` and `remoteConn`.  The variant in
`unnamed/part_012` (lines 176–199) half-closes instead: the download
goroutine ends with `localConn.CloseWrite()`, the upload path ends with
`remoteConn.CloseWrite()` and then waits on a `sync.WaitGroup` before
the deferred full closes run.

The scenario of the claim is fixed: the inbound sends `req` then
half-closes, the outbound then answers `resp` and closes.  The schedule
modelled is the one where the inbound→outbound copier finishes (and runs
its completion actions) before the outbound→inbound copier reads: with
TCP, once an endpoint has been fully closed a copy from or to it aborts
and delivers nothing. -/

structure ForwardState where
  localClosed : Bool
  remoteClosed : Bool
  localWriteClosed : Bool
  remoteWriteClosed : Bool
  deliveredToInbound : List Nat
  sentToOutbound : List Nat
deriving DecidableEq, Repr

def ForwardState.initial : ForwardState :=
  { localClosed := false, remoteClosed := false
    localWriteClosed := false, remoteWriteClosed := false
    deliveredToInbound := [], sentToOutbound := [] }

/-- `io.Copy(localConn, remoteConn)` in the fixed scenario, run at a
point where the outbound's whole answer `resp` is available followed by
its EOF: delivers `resp` to the inbound unless one of the two endpoints
has already been fully closed, in which case the copy aborts having
delivered nothing (worst case admitted by a full TCP close). -/
def copyRemoteToLocal (resp : List Nat) (st : ForwardState) : ForwardState :=
  if st.remoteClosed ∨ st.localClosed then st
  else { st with deliveredToInbound := st.deliveredToInbound ++ resp }

/-- The close-flavoured actions a copier runs when it completes. -/
inductive CloseAction where
  | closeLocal
  | closeRemote
  | closeWriteLocal
  | closeWriteRemote
  | waitPeer
deriving DecidableEq, Repr

/-- What the `handler.go` variant executes when the inbound→outbound
copier completes: its deferred `closeAll()` body, i.e.
`localConn.Close(); remoteConn.Close()`. -/
def closeAllOnInboundEOF : List CloseAction := [.closeLocal, .closeRemote]

/-- What the `part_012` variant executes when the inbound→outbound copy
returns: `remoteConn.CloseWrite()` and then `wg.Wait()`. -/
def halfCloseOnInboundEOF : List CloseAction := [.closeWriteRemote, .waitPeer]

/-- `handleTCP` forwarding phase, `handler.go` variant, under the
schedule described above:  the upload copier `io.Copy(remoteConn,
localConn)` copies `req`, sees the inbound EOF and runs `closeAll()`;
only then does the download copier `io.Copy(localConn, remoteConn)` run,
followed by its own (now idempotent) `closeAll()`. -/
def handleTCPCloseAllRun (req resp : List Nat) : ForwardState :=
  let st1 := { ForwardState.initial with sentToOutbound := req }
  let st2 := { st1 with localClosed := true, remoteClosed := true }
  let st3 := copyRemoteToLocal resp st2
  { st3 with localClosed := true, remoteClosed := true }

/-- `handleTCP` forwarding phase, `part_012` variant, same schedule: the
upload path copies `req`, then `remoteConn.CloseWrite()`; the download
goroutine copies `resp` and runs `localConn.CloseWrite()`; `wg.Wait()`
joins both copiers, and only then do the deferred full closes run. -/
def handleTCPHalfCloseRun (req resp : List Nat) : ForwardState :=
  let st1 := { ForwardState.initial with sentToOutbound := req }
  let st2 := { st1 with remoteWriteClosed := true }
  let st3 := copyRemoteToLocal resp st2
  let st4 := { st3 with localWriteClosed := true }
  { st4 with localClosed := true, remoteClosed := true }

/-! ## UDP NAT manager (`core/tun/udp_nat.go`)

`GetOrCreate` is modelled for a single key under the canonical
interleaving in which all `N+1` concurrent callers perform their atomic
`sessions.LoadOrStore` before the leader proceeds, the leader then runs
to completion, and the losers' `select` on the `ready` channel wakes
afterwards.  The entry mutation and map operations follow the source
line by line; a loser keeps the entry pointer `LoadOrStore` returned, so
it reads the entry's final fields even after `sessions.Delete`. -/

/-- A session-table entry (`UDPSession`): the inbound endpoint it was
created for, the `ready` channel state, the stored `initErr`, and the
outbound stream once dialing succeeded. -/
structure NatEntry where
  localConn : Nat
  readyClosed : Bool
  initErr : Option Nat
  remoteConn : Option Nat
deriving DecidableEq, Repr

/-- The table-and-entry events the leader performs, in source order.
On a dial/handshake failure, `fail` assigns `initErr`, closes `ready`
and only then deletes the placeholder; on success the outbound is stored
and `ready` closed (the entry stays in the table). -/
inductive NatEvent where
  | loadOrStoreInsert
  | dialAttempt
  | setInitErr (e : Nat)
  | setRemote (c : Nat)
  | closeReady
  | deleteEntry
deriving DecidableEq, Repr

def leaderEvents (dial : Except Nat Nat) : List NatEvent :=
  match dial with
  | .error e => [.loadOrStoreInsert, .dialAttempt, .setInitErr e, .closeReady, .deleteEntry]
  | .ok c => [.loadOrStoreInsert, .dialAttempt, .setRemote c, .closeReady]

/-- The state of the manager for the key: the table slot and the shared
entry record (aliased by every caller's pointer). -/
structure NatState where
  table : Option Unit
  entry : NatEntry
  dialCount : Nat
deriving DecidableEq, Repr

def natStep (st : NatState) (ev : NatEvent) : NatState :=
  match ev with
  | .loadOrStoreInsert => { st with table := some () }
  | .dialAttempt => { st with dialCount := st.dialCount + 1 }
  | .setInitErr e => { st with entry := { st.entry with initErr := some e } }
  | .setRemote c => { st with entry := { st.entry with remoteConn := some c } }
  | .closeReady => { st with entry := { st.entry with readyClosed := true } }
  | .deleteEntry => { st with table := none }

def natRun (localConn : Nat) (dial : Except Nat Nat) : NatState :=
  (leaderEvents dial).foldl natStep
    { table := none
      entry := { localConn := localConn, readyClosed := false
                 initErr := none, remoteConn := none }
      dialCount := 0 }

/-- The leader's return value (`fail` returns the error, success returns
the session, identified here by its outbound conn id). -/
def leaderOutcome (dial : Except Nat Nat) : Except Nat Nat := dial

/-- A loser's path through `GetOrCreate`: wait on `ready` (closed in the
modelled schedule once the leader finished), surface `initErr` if set,
fail `"session stale"` when the entry's inbound endpoint differs from
the caller's, otherwise return the shared session.  Error code 998
stands for the stale error, matching no `initErr` code by convention. -/
def loserOutcome (myLocalConn : Nat) (entry : NatEntry) : Except Nat Nat :=
  if ¬ entry.readyClosed then .error 999
  else
    match entry.initErr with
    | some e => .error e
    | none =>
      if entry.localConn ≠ myLocalConn then .error 998
      else .ok (entry.remoteConn.getD 0)

/-- All `n` losers' outcomes under the canonical schedule (each passes
the same key and the same inbound endpoint `localConn`). -/
def loserOutcomes (n : Nat) (localConn : Nat) (dial : Except Nat Nat) :
    List (Except Nat Nat) :=
  List.replicate n (loserOutcome localConn (natRun localConn dial).entry)

/-! ## Process lifecycle (`mobile/lib.go` and its `part_008` variant)

The instance state is the package-level stack variable; stack instances
are numbered, and `closedStacks` records every instance whose `Close`
was invoked.  Config parsing and `tun.StartStack` are abstracted by the
two success flags, and the error strings by fixed representatives. -/

structure MobileState where
  vpnStack : Option Nat
  closedStacks : List Nat
  nextId : Nat
deriving DecidableEq, Repr

/-- `StartVpn` from `mobile/lib.go` (primary version): refuses when an
instance is already running, otherwise parses the config and starts the
stack. -/
def startVpnPrimary (st : MobileState) (parseOk startOk : Bool) :
    MobileState × String :=
  if st.vpnStack.isSome then (st, "VPN already running")
  else if ¬ parseOk then (st, "config parse error")
  else if ¬ startOk then (st, "stack start error")
  else ({ st with vpnStack := some st.nextId, nextId := st.nextId + 1 }, "")

/-- `StartVpn` from `unnamed/part_008`: under the package mutex, an
already-running instance is closed and cleared first, then the config is
parsed and a fresh stack started. -/
def startVpnStopFirst (st : MobileState) (parseOk startOk : Bool) :
    MobileState × String :=
  let st1 :=
    match st.vpnStack with
    | some s => { st with vpnStack := none, closedStacks := st.closedStacks ++ [s] }
    | none => st
  if ¬ parseOk then (st1, "Config Error")
  else if ¬ startOk then (st1, "Stack Error")
  else ({ st1 with vpnStack := some st1.nextId, nextId := st1.nextId + 1 }, "")

/-! ## Theorems -/

theorem readFull_exact (n : Nat) (l rest : List Nat) (h : l.length = n) :
    readFull n (l ++ rest) = some (l, rest) := by
  subst h; exact readFull_append l rest

/-- Claim C3: with `settings.fragment = true`, the first `Write` through
the fragment shim of a payload `b` with `len(b) > 50` and `b[0] = 0x16`
produces exactly two underlying TCP writes whose sizes sum to `len(b)`,
the first of size in `[5, 15)`, and whose concatenation equals `b`;
every subsequent `Write`, and every `Write` when
`settings.fragment = false`, is a single unmodified write. -/
theorem fragment_shim_first_write_splits (r : Nat) (b : List Nat)
    (hlen : b.length > 50) (hhead : b.headD 0 = 0x16) :
    fragmentWrite r true b =
      (false, [b.take (5 + r % 10), b.drop (5 + r % 10)]) ∧
    (b.take (5 + r % 10)).length + (b.drop (5 + r % 10)).length = b.length ∧
    5 ≤ (b.take (5 + r % 10)).length ∧ (b.take (5 + r % 10)).length < 15 ∧
    b.take (5 + r % 10) ++ b.drop (5 + r % 10) = b ∧
    (∀ b2 : List Nat, fragmentWrite r false b2 = (false, [b2])) ∧
    (∀ cfg : OutboundConfig, cfg.settings.fragment = false →
      fragmentInstalled cfg = false ∧
      ∀ r2 active b2, shimWrite (fragmentInstalled cfg) r2 active b2 = (active, [b2])) := by
  have hcut : 5 + r % 10 < 15 := by
    have := Nat.mod_lt r (show 0 < 10 by decide)
    omega
  have hcutlen : (b.take (5 + r % 10)).length = 5 + r % 10 := by
    rw [List.length_take]
    omega
  refine ⟨?_, ?_, ?_, ?_, ?_, ?_, ?_⟩
  · have hhead2 : b.head?.getD 0 = 0x16 := by
      rw [← List.headD_eq_head?]
      exact hhead
    simp [fragmentWrite, hlen, hhead2]
  · rw [List.length_take, List.length_drop]
    omega
  · omega
  · omega
  · exact List.take_append_drop _ b
  · intro b2; simp [fragmentWrite]
  · intro cfg hfrag
    have hinst : fragmentInstalled cfg = false := by
      unfold fragmentInstalled
      cases cfg.tls with
      | none => rfl
      | some t => simp [hfrag]
    exact ⟨hinst, fun r2 active b2 => by simp [shimWrite, hinst]⟩

theorem fragment_shim_first_write_splits_witness :
    (0x16 :: List.replicate 51 0).length > 50 ∧
    (0x16 :: List.replicate 51 0).headD 0 = 0x16 ∧
    fragmentWrite 0 true (0x16 :: List.replicate 51 0) =
      (false, [(0x16 :: List.replicate 51 0).take 5,
               (0x16 :: List.replicate 51 0).drop 5]) :=
  ⟨by decide, by decide,
   (fragment_shim_first_write_splits 0 (0x16 :: List.replicate 51 0)
      (by decide) (by decide)).1⟩

/-- Claim C4: the Shadowsocks prologue is the 16 random salt bytes
followed by the SOCKS address encoding of the target, written as one
payload; for target `1.2.3.4:80` it is 23 bytes long and its last 7
bytes are `01 01 02 03 04 00 50`. -/
theorem shadowsocks_prologue_shape (password salt : List Nat) (host : Host)
    (port : Nat) (addr : List Nat) (hsalt : salt.length = 16)
    (haddr : ToSocksAddr host port = some addr) :
    BuildShadowsocksPayload password salt host port = some (salt ++ addr) ∧
    BuildShadowsocksPayload password salt (.ipv4 1 2 3 4) 80 =
      some (salt ++ [0x01, 0x01, 0x02, 0x03, 0x04, 0x00, 0x50]) ∧
    (salt ++ [0x01, 0x01, 0x02, 0x03, 0x04, 0x00, 0x50]).length = 23 ∧
    (salt ++ [0x01, 0x01, 0x02, 0x03, 0x04, 0x00, 0x50]).drop 16 =
      [0x01, 0x01, 0x02, 0x03, 0x04, 0x00, 0x50] := by
  refine ⟨?_, ?_, ?_, ?_⟩
  · simp [BuildShadowsocksPayload, haddr]
  · rfl
  · simp [hsalt]
  · rw [show 16 = salt.length from hsalt.symm, List.drop_left]

theorem shadowsocks_prologue_shape_witness :
    (List.replicate 16 9).length = 16 ∧
    ToSocksAddr (.ipv4 1 2 3 4) 80 = some [0x01, 0x01, 0x02, 0x03, 0x04, 0x00, 0x50] ∧
    BuildShadowsocksPayload [] (List.replicate 16 9) (.ipv4 1 2 3 4) 80 =
      some (List.replicate 16 9 ++ [0x01, 0x01, 0x02, 0x03, 0x04, 0x00, 0x50]) :=
  ⟨by decide, by decide,
   (shadowsocks_prologue_shape [] (List.replicate 16 9) (.ipv4 1 2 3 4) 80
      [0x01, 0x01, 0x02, 0x03, 0x04, 0x00, 0x50] (by decide) (by decide)).1⟩

/-- Claim C10: when TLS is not enabled the fragment shim is never
installed (the wrap happens only inside the TLS-enabled branch of
`Dial`), so every byte slice written to the returned connection reaches
the underlying TCP connection as a single unmodified write, even with
`settings.fragment = true`. -/
theorem no_fragment_shim_without_tls (cfg : OutboundConfig)
    (h : tlsBranchTaken cfg = false) :
    fragmentInstalled cfg = false ∧
    ∀ r active b, shimWrite (fragmentInstalled cfg) r active b = (active, [b]) := by
  have hinst : fragmentInstalled cfg = false := by
    unfold fragmentInstalled
    unfold tlsBranchTaken at h
    rcases htls : cfg.tls with _ | t
    · simp
    · rw [htls] at h
      simp at h
      simp [h]
  exact ⟨hinst, fun r active b => by simp [shimWrite, hinst]⟩

theorem no_fragment_shim_without_tls_witness :
    tlsBranchTaken
      { tag := "", nodeType := "trojan", server := "s.example", serverPort := 443
        uuid := "", password := "p", username := ""
        tls := some { enabled := false, serverName := "", insecure := false
                      enableECH := false, echDoHURL := "", echPublicName := "" }
        transport := none, settings := { fragment := true } } = false ∧
    fragmentInstalled
      { tag := "", nodeType := "trojan", server := "s.example", serverPort := 443
        uuid := "", password := "p", username := ""
        tls := some { enabled := false, serverName := "", insecure := false
                      enableECH := false, echDoHURL := "", echPublicName := "" }
        transport := none, settings := { fragment := true } } = false :=
  ⟨by decide,
   (no_fragment_shim_without_tls _ (by decide)).1⟩

/-- Claim C9 counterexample: with ECH enabled and a successful DoH
resolution the dialer injects the returned list into the uTLS config,
but the config's minimum version is `tls.VersionTLS12`, not TLS 1.3:
the conjunction asserted by the claim fails at this concrete input. -/
theorem ech_min_version_counterexample :
    dialEchConfigList
      { enabled := true, serverName := "s.example", insecure := false
        enableECH := true, echDoHURL := "https://doh.example/dns-query"
        echPublicName := "public.example" }
      (some (List.replicate 76 1)) = List.replicate 76 1 ∧
    (buildUTLSConfig
      { tag := "", nodeType := "vless", server := "s.example", serverPort := 443
        uuid := "u", password := "", username := ""
        tls := some { enabled := true, serverName := "s.example", insecure := false
                      enableECH := true, echDoHURL := "https://doh.example/dns-query"
                      echPublicName := "public.example" }
        transport := none, settings := { fragment := false } }
      { enabled := true, serverName := "s.example", insecure := false
        enableECH := true, echDoHURL := "https://doh.example/dns-query"
        echPublicName := "public.example" }
      (List.replicate 76 1)).echConfigList = List.replicate 76 1 ∧
    (buildUTLSConfig
      { tag := "", nodeType := "vless", server := "s.example", serverPort := 443
        uuid := "u", password := "", username := ""
        tls := some { enabled := true, serverName := "s.example", insecure := false
                      enableECH := true, echDoHURL := "https://doh.example/dns-query"
                      echPublicName := "public.example" }
        transport := none, settings := { fragment := false } }
      { enabled := true, serverName := "s.example", insecure := false
        enableECH := true, echDoHURL := "https://doh.example/dns-query"
        echPublicName := "public.example" }
      (List.replicate 76 1)).minVersion ≠ TLSVersion.tls13 := by
  refine ⟨by decide, by decide, by decide⟩

/-- Claim C9 (amended): when ECH is enabled and the DoH resolution
returns a non-empty config list, `Dial` injects that list into the uTLS
configuration, but the configuration's minimum TLS version is set to
TLS 1.2 (the constant `tls.VersionTLS12`), not forced to TLS 1.3. -/
theorem ech_injected_min_version_tls12 (cfg : OutboundConfig)
    (tlsCfg : TLSConfig) (echList : List Nat) (hne : echList ≠ []) :
    (buildUTLSConfig cfg tlsCfg echList).echConfigList = echList ∧
    (buildUTLSConfig cfg tlsCfg echList).minVersion = TLSVersion.tls12 ∧
    (tlsCfg.enableECH = true → tlsCfg.echDoHURL ≠ "" → echList.length > 0 →
      dialEchConfigList tlsCfg (some echList) = echList) := by
  refine ⟨?_, ?_, ?_⟩
  · unfold buildUTLSConfig
    by_cases h : tlsCfg.serverName = "" <;> simp [h]
  · unfold buildUTLSConfig
    by_cases h : tlsCfg.serverName = "" <;> simp [h]
  · intro hech hurl hpos
    simp [dialEchConfigList, hech, hurl, hpos]

theorem ech_injected_min_version_tls12_witness :
    ([7] : List Nat) ≠ [] ∧
    (buildUTLSConfig
      { tag := "", nodeType := "vless", server := "s", serverPort := 443
        uuid := "", password := "", username := ""
        tls := none, transport := none, settings := { fragment := false } }
      { enabled := true, serverName := "sni", insecure := false
        enableECH := true, echDoHURL := "d", echPublicName := "p" }
      [7]).minVersion = TLSVersion.tls12 :=
  ⟨by decide,
   (ech_injected_min_version_tls12 _ _ [7] (by decide)).2.1⟩

/-- Claim C7 counterexample: for a `shadowsocks` node with a non-empty
`uuid` and an empty `username`, `ParseConfig` leaves `username` empty —
the alias applies only to `"socks"` and `"socks5"` node types. -/
theorem uuid_alias_shadowsocks_counterexample :
    (applyUuidAlias
      { tag := "", nodeType := "shadowsocks", server := "ss.example"
        serverPort := 8443, uuid := "u", password := "pw", username := ""
        tls := none, transport := none, settings := { fragment := false } }).username = "" ∧
    ("" : String) ≠ "u" := by
  refine ⟨?_, by decide⟩
  unfold applyUuidAlias
  decide

/-- Claim C7 (amended): for node types `"socks"` and `"socks5"` with a
non-empty `uuid` and an empty `username`, parsing aliases `username` to
`uuid` and leaves every other field unchanged; for `"shadowsocks"` the
configuration is returned entirely unchanged. -/
theorem uuid_alias_socks_only (cfg : OutboundConfig)
    (htype : cfg.nodeType = "socks" ∨ cfg.nodeType = "socks5")
    (huser : cfg.username = "") (huuid : cfg.uuid ≠ "") :
    (applyUuidAlias cfg).username = cfg.uuid ∧
    (applyUuidAlias cfg).tag = cfg.tag ∧
    (applyUuidAlias cfg).nodeType = cfg.nodeType ∧
    (applyUuidAlias cfg).server = cfg.server ∧
    (applyUuidAlias cfg).serverPort = cfg.serverPort ∧
    (applyUuidAlias cfg).uuid = cfg.uuid ∧
    (applyUuidAlias cfg).password = cfg.password ∧
    (applyUuidAlias cfg).tls = cfg.tls ∧
    (applyUuidAlias cfg).transport = cfg.transport ∧
    (applyUuidAlias cfg).settings = cfg.settings ∧
    (∀ cfg2 : OutboundConfig, cfg2.nodeType = "shadowsocks" →
      applyUuidAlias cfg2 = cfg2) := by
  have hcond : (cfg.nodeType = "socks" ∨ cfg.nodeType = "socks5") ∧
      cfg.username = "" ∧ cfg.uuid ≠ "" := ⟨htype, huser, huuid⟩
  have halias : applyUuidAlias cfg = { cfg with username := cfg.uuid } := by
    unfold applyUuidAlias
    exact if_pos hcond
  refine ⟨by rw [halias], by rw [halias], by rw [halias], by rw [halias],
          by rw [halias], by rw [halias], by rw [halias], by rw [halias],
          by rw [halias], by rw [halias], ?_⟩
  intro cfg2 h2
  unfold applyUuidAlias
  rw [if_neg]
  intro hc
  rcases hc.1 with h | h <;> rw [h2] at h <;> simp_all

theorem uuid_alias_socks_only_witness :
    (applyUuidAlias
      { tag := "t", nodeType := "socks5", server := "sx.example"
        serverPort := 1080, uuid := "alice", password := "pw", username := ""
        tls := none, transport := none, settings := { fragment := false } }).username
      = "alice" :=
  (uuid_alias_socks_only _ (Or.inr (by decide)) (by decide) (by decide)).1

/-- Claim C8 counterexample: invoking `StartVpn` (primary
`mobile/lib.go`) while an instance is running returns the string
`"VPN already running"`, not the empty success string, and the running
instance is neither closed nor replaced. -/
theorem start_vpn_running_counterexample :
    startVpnPrimary { vpnStack := some 0, closedStacks := [], nextId := 1 } true true =
      ({ vpnStack := some 0, closedStacks := [], nextId := 1 }, "VPN already running") ∧
    ("VPN already running" : String) ≠ "" := by
  exact ⟨rfl, by decide⟩

/-- Claim C8 (amended): the primary `StartVpn` refuses a second start
with the error string `"VPN already running"`, leaving the old instance
untouched; the `part_008` variant instead closes the running instance
first, creates a fresh one and returns the empty success string, after
which exactly the new instance is running. -/
theorem start_vpn_second_start (st : MobileState) (s : Nat)
    (hrun : st.vpnStack = some s) :
    startVpnPrimary st true true = (st, "VPN already running") ∧
    (startVpnStopFirst st true true).2 = "" ∧
    (startVpnStopFirst st true true).1.vpnStack = some st.nextId ∧
    s ∈ (startVpnStopFirst st true true).1.closedStacks := by
  refine ⟨?_, ?_, ?_, ?_⟩
  · unfold startVpnPrimary
    rw [hrun]
    rfl
  · unfold startVpnStopFirst
    rw [hrun]
    rfl
  · unfold startVpnStopFirst
    rw [hrun]
    rfl
  · unfold startVpnStopFirst
    rw [hrun]
    simp

theorem start_vpn_second_start_witness :
    (startVpnStopFirst { vpnStack := some 5, closedStacks := [], nextId := 6 } true true).2
      = "" :=
  (start_vpn_second_start { vpnStack := some 5, closedStacks := [], nextId := 6 } 5 rfl).2.1

theorem readFull_two (a b : Nat) (rest : List Nat) :
    readFull 2 (a :: b :: rest) = some ([a, b], rest) := rfl

theorem readFull_four (a b c d : Nat) (rest : List Nat) :
    readFull 4 (a :: b :: c :: d :: rest) = some ([a, b, c, d], rest) := rfl

theorem readFull_one (a : Nat) (rest : List Nat) :
    readFull 1 (a :: rest) = some ([a], rest) := rfl

/-- Claim C1 counterexample: in the `handleTCP` of
`core/proxy/handler.go`, completion of the inbound→outbound copier runs
`closeAll()`, fully closing both streams instead of half-closing only
the outbound write side; with the inbound sending 1 byte then EOF and
the outbound answering 2 bytes, the inbound observes 0 of those bytes
under the schedule where the upload copier finishes first. -/
theorem forwarder_full_close_counterexample :
    (handleTCPCloseAllRun [10] [20, 21]).deliveredToInbound = [] ∧
    ([] : List Nat) ≠ [20, 21] ∧
    closeAllOnInboundEOF = [.closeLocal, .closeRemote] ∧
    CloseAction.closeWriteRemote ∉ closeAllOnInboundEOF := by
  refine ⟨rfl, by decide, rfl, by decide⟩

/-- Claim C1 (amended): in the `part_012` variant of `handleTCP`, the
completion of the inbound→outbound copier half-closes only the
outbound's write side and the forwarder waits for the other copier
before releasing the streams, so the inbound observes exactly the
outbound's `resp` bytes; in the `handler.go` variant, completion of
either copier fully closes both streams, and under the
upload-first schedule the inbound observes none of them. -/
theorem forwarder_half_close_variant (req resp : List Nat) :
    (handleTCPHalfCloseRun req resp).deliveredToInbound = resp ∧
    (handleTCPHalfCloseRun req resp).sentToOutbound = req ∧
    halfCloseOnInboundEOF = [.closeWriteRemote, .waitPeer] ∧
    (handleTCPCloseAllRun req resp).deliveredToInbound = [] ∧
    closeAllOnInboundEOF = [.closeLocal, .closeRemote] := by
  refine ⟨?_, rfl, rfl, ?_, rfl⟩
  · simp [handleTCPHalfCloseRun, copyRemoteToLocal, ForwardState.initial]
  · simp [handleTCPCloseAllRun, copyRemoteToLocal, ForwardState.initial]

/-- Claim C2: under the canonical schedule (all callers `LoadOrStore`
before the leader proceeds), exactly one dial is attempted for the key;
every loser observes the same outcome as the leader — the shared session
on success, the shared `initErr` on failure; and on failure the
placeholder is deleted, with the `ready` channel closed (waking all
waiters) strictly before the `sessions.Delete` in the leader's event
sequence. -/
theorem udp_nat_single_flight (n localConn : Nat) (dial : Except Nat Nat) :
    (natRun localConn dial).dialCount = 1 ∧
    loserOutcomes n localConn dial = List.replicate n (leaderOutcome dial) ∧
    (∀ e, dial = .error e →
      (natRun localConn dial).table = none ∧
      leaderEvents dial =
        [.loadOrStoreInsert, .dialAttempt, .setInitErr e, .closeReady, .deleteEntry]) ∧
    (∀ c, dial = .ok c →
      (natRun localConn dial).table = some () ∧
      (natRun localConn dial).entry.remoteConn = some c ∧
      leaderOutcome dial = .ok c) := by
  rcases dial with e | c <;>
    simp [natRun, leaderEvents, natStep, loserOutcomes, loserOutcome,
      leaderOutcome, List.foldl]

theorem udp_nat_single_flight_witness :
    (natRun 7 (.error 42)).table = none ∧
    loserOutcomes 3 7 (.error 42) = List.replicate 3 (Except.error 42) ∧
    (natRun 7 (.error 42)).dialCount = 1 := by
  have h := udp_nat_single_flight 3 7 (.error 42)
  exact ⟨(h.2.2.1 42 rfl).1, h.2.1, h.1⟩

/-- Claim C5 counterexample: when the server's method selection is
`0xFF`, the primary `HandshakeSocks5` does not fail — the guard
`authMethod != 0x00 && authMethod != 0xFF` lets `0xFF` through — and it
proceeds to send the CONNECT request (second write below) and even
returns success. -/
theorem socks5_ff_counterexample :
    (HandshakeSocks5 [97] [98] (.ipv4 1 2 3 4) 80
      [0x05, 0xFF, 0x05, 0x00, 0x00, 0x01, 0, 0, 0, 0, 0, 0]).outcome =
        .ok [] ∧
    (HandshakeSocks5 [97] [98] (.ipv4 1 2 3 4) 80
      [0x05, 0xFF, 0x05, 0x00, 0x00, 0x01, 0, 0, 0, 0, 0, 0]).writes =
      [[0x05, 0x01, 0x02],
       [0x05, 0x01, 0x00, 0x01, 0x01, 0x02, 0x03, 0x04, 0x00, 0x50]] :=
  ⟨rfl, rfl⟩

/-- Claim C5 (amended): `HandshakeSocks5` fails with an authentication
error whenever the username/password subnegotiation returns a nonzero
status, without sending the CONNECT request; but when the server selects
method `0xFF` it does not fail — it skips authentication and proceeds
directly to the CONNECT exchange. -/
theorem socks5_auth_error_but_ff_proceeds :
    (∀ (user pass : List Nat) (host : Host) (port status : Nat)
        (rest : List Nat),
      user ≠ [] → user.length ≤ 255 → pass.length ≤ 255 → status ≠ 0 →
      HandshakeSocks5 user pass host port (0x05 :: 0x02 :: 0x01 :: status :: rest) =
        ⟨[[0x05, 0x01, 0x02],
          [0x01, user.length] ++ user ++ [pass.length] ++ pass],
         .error (.authFailed status)⟩) ∧
    (∀ (user pass : List Nat) (host : Host) (port : Nat) (rest : List Nat),
      user ≠ [] →
      HandshakeSocks5 user pass host port (0x05 :: 0xFF :: rest) =
        socks5Connect host port [[0x05, 0x01, 0x02]] rest) := by
  constructor
  · intro user pass host port status rest huser hulen hplen hstatus
    simp [HandshakeSocks5, readFull_two, huser, hstatus]
    omega
  · intro user pass host port rest huser
    simp [HandshakeSocks5, readFull_two, huser]

theorem socks5_auth_error_but_ff_proceeds_witness :
    HandshakeSocks5 [97] [98] (.ipv4 1 2 3 4) 80 [0x05, 0x02, 0x01, 0x01] =
      ⟨[[0x05, 0x01, 0x02], [0x01, 1, 97, 1, 98]],
       .error (.authFailed 1)⟩ := by
  have h := socks5_auth_error_but_ff_proceeds.1 [97] [98] (.ipv4 1 2 3 4) 80 1 []
    (by decide) (by decide) (by decide) (by decide)
  simpa using h

/-- Claim C6: whenever the SOCKS5 CONNECT reply indicates success,
`HandshakeSocks5` consumes the 4-byte header, the full BND.ADDR (4, 16,
or 1 + len bytes according to ATYP) and the 2-byte BND.PORT, so the
bytes the server sends after the reply (`rest`) are exactly what remains
unread on the stream. -/
theorem socks5_reply_fully_consumed (host : Host) (port : Nat)
    (addr pass : List Nat) (haddr : buildSocksAddr host port = some addr) :
    (∀ bnd rest : List Nat, bnd.length = 6 →
      (HandshakeSocks5 [] pass host port
        (0x05 :: 0x00 :: 0x05 :: 0x00 :: 0x00 :: 0x01 :: (bnd ++ rest))).outcome =
        .ok rest) ∧
    (∀ bnd rest : List Nat, bnd.length = 18 →
      (HandshakeSocks5 [] pass host port
        (0x05 :: 0x00 :: 0x05 :: 0x00 :: 0x00 :: 0x04 :: (bnd ++ rest))).outcome =
        .ok rest) ∧
    (∀ (n : Nat) (dbody rest : List Nat), dbody.length = n + 2 →
      (HandshakeSocks5 [] pass host port
        (0x05 :: 0x00 :: 0x05 :: 0x00 :: 0x00 :: 0x03 :: n :: (dbody ++ rest))).outcome =
        .ok rest) := by
  refine ⟨?_, ?_, ?_⟩
  · intro bnd rest hbnd
    have hr : readFull (4 + 2) (bnd ++ rest) = some (bnd, rest) :=
      readFull_exact _ _ _ hbnd
    simp [HandshakeSocks5, socks5Connect, readFull_two, readFull_four, haddr, hr]
  · intro bnd rest hbnd
    have hr : readFull (16 + 2) (bnd ++ rest) = some (bnd, rest) :=
      readFull_exact _ _ _ hbnd
    simp [HandshakeSocks5, socks5Connect, readFull_two, readFull_four, haddr, hr]
  · intro n dbody rest hbody
    have hr : readFull (n + 2) (dbody ++ rest) = some (dbody, rest) :=
      readFull_exact _ _ _ hbody
    simp [HandshakeSocks5, socks5Connect, readFull_two, readFull_four,
      readFull_one, haddr, hr]

theorem socks5_reply_fully_consumed_witness :
    buildSocksAddr (.ipv4 1 2 3 4) 80 = some [0x01, 0x01, 0x02, 0x03, 0x04, 0x00, 0x50] ∧
    (HandshakeSocks5 [] [] (.ipv4 1 2 3 4) 80
      (0x05 :: 0x00 :: 0x05 :: 0x00 :: 0x00 :: 0x01 ::
        ([0, 0, 0, 0, 0, 0] ++ [72, 69, 76, 76, 79]))).outcome =
      .ok [72, 69, 76, 76, 79] :=
  ⟨by decide,
   (socks5_reply_fully_consumed (.ipv4 1 2 3 4) 80
      [0x01, 0x01, 0x02, 0x03, 0x04, 0x00, 0x50] [] (by decide)).1
     [0, 0, 0, 0, 0, 0] [72, 69, 76, 76, 79] (by decide)⟩

end Mandala
